import Mathlib

/-!
BhavCopy-Analyser — verification of the announcement-retrieval core

Shallow embedding of the repository's paginated-retry announcement
retrieval protocol and normalization pipeline:

* `bsescraper.py` — `bseindia_apiScraper` (pagination/retry controller,
  date-window resolution, response classification);
* `bse_announcements_tab.py` — `scrape_day_wise` (day-wise batch
  orchestrator) and `get_attachment_url` (document-view URL rule);
* `webscraper.py` — `scrape_nse_announcements_robust` (the per-row
  normalizer portion).

The HTTP transport is modelled as an oracle assigning one response to
each attempt; Python `dict`s are modelled by structures (for the query
parameters) and association lists (for the normalizer's row dicts);
Python `date` objects by a year/month/day structure with proleptic
Gregorian day-number arithmetic (`datetime.date` ordinal arithmetic).
Diagnostic message strings (`msg`, `latest_call`) and console printing
(`printMsgs`) do not influence control flow or data and are omitted.
-/

/-! ## Calendar model (`datetime.date`)

Python `date` objects are triples (year, month, day) with
`year ∈ [1, 9999]`; subtraction of a `timedelta` and comparison go
through the proleptic-Gregorian day ordinal.  `toDays`/`fromDays`
implement the standard civil-from-days conversion (all-`Nat` variant,
day 0 = 0000-03-01). -/

structure Date where
  year : Nat
  month : Nat
  day : Nat
deriving DecidableEq, Repr

def isLeap (y : Nat) : Bool :=
  (y % 4 == 0 && y % 100 != 0) || y % 400 == 0

def daysInMonth (y m : Nat) : Nat :=
  if m = 2 then (if isLeap y then 29 else 28)
  else if m = 4 ∨ m = 6 ∨ m = 9 ∨ m = 11 then 30 else 31

/-- A triple that denotes a real `datetime.date` value. -/
def validDate (d : Date) : Prop :=
  1 ≤ d.year ∧ d.year ≤ 9999 ∧ 1 ≤ d.month ∧ d.month ≤ 12 ∧
    1 ≤ d.day ∧ d.day ≤ daysInMonth d.year d.month

instance : DecidablePred validDate := by
  intro d; unfold validDate; infer_instance

/-- Day ordinal of a date (day 0 = 0000-03-01). -/
def toDays (d : Date) : Nat :=
  let y := if d.month ≤ 2 then d.year - 1 else d.year
  let era := y / 400
  let yoe := y % 400
  let mp := (d.month + 9) % 12
  let doy := (153 * mp + 2) / 5 + d.day - 1
  let doe := yoe * 365 + yoe / 4 - yoe / 100 + doy
  era * 146097 + doe

/-- Date of a day ordinal (inverse of `toDays` on valid dates). -/
def fromDays (z : Nat) : Date :=
  let era := z / 146097
  let doe := z % 146097
  let yoe := (doe - doe / 1460 + doe / 36524 - doe / 146096) / 365
  let y := yoe + era * 400
  let doy := doe - (365 * yoe + yoe / 4 - yoe / 100)
  let mp := (5 * doy + 2) / 153
  let dy := doy - (153 * mp + 2) / 5 + 1
  let m := if mp < 10 then mp + 3 else mp - 9
  ⟨if m ≤ 2 then y + 1 else y, m, dy⟩

/-- `d + timedelta(days=n)`. -/
def addDays (d : Date) (n : Nat) : Date := fromDays (toDays d + n)

/-- `d - timedelta(days=n)`. -/
def subDays (d : Date) (n : Nat) : Date := fromDays (toDays d - n)

/-- Python date comparison `a <= b` (ordinal order). -/
def dateLeB (a b : Date) : Bool := toDays a ≤ toDays b

/-- Zero-padded 4-digit rendering; agrees with Python's `%04d` for every
legal year (`1 ≤ y ≤ 9999`). -/
def pad4 (n : Nat) : String :=
  String.mk [Nat.digitChar (n / 1000 % 10), Nat.digitChar (n / 100 % 10),
    Nat.digitChar (n / 10 % 10), Nat.digitChar (n % 10)]

/-- Zero-padded 2-digit rendering; agrees with Python's `%02d` for
`n ≤ 99` (months and days always are). -/
def pad2 (n : Nat) : String :=
  String.mk [Nat.digitChar (n / 10 % 10), Nat.digitChar (n % 10)]

/-- `d.isoformat()`, e.g. `2024-05-10`. -/
def isoDate (d : Date) : String :=
  pad4 d.year ++ "-" ++ pad2 d.month ++ "-" ++ pad2 d.day

/-- `d.isoformat().replace('-', '')`, e.g. `20240510` — the 8-digit form
produced by `cleanDate` (bsescraper.py line 11). -/
def isoCompact (d : Date) : String :=
  pad4 d.year ++ pad2 d.month ++ pad2 d.day

/-- Python `str.strip()`: drop leading and trailing whitespace
(character-list implementation). -/
def pyStrip (s : String) : String :=
  String.mk
    (((s.data.dropWhile Char.isWhitespace).reverse.dropWhile
      Char.isWhitespace).reverse)

/-- Python `str.lower()` (ASCII case folding suffices here). -/
def pyLower (s : String) : String := String.mk (s.data.map Char.toLower)

/-- Numeric value of a list of decimal digits (`none` if empty or any
character is not a digit). -/
def digitsToNat (l : List Char) : Option Nat :=
  if l.length ≠ 0 ∧ l.all Char.isDigit then
    some (l.foldl (fun acc c => acc * 10 + (c.toNat - 48)) 0)
  else none

/-- `date.fromisoformat(f'{sd[:4]}-{sd[4:6]}-{sd[6:]}')`
(bsescraper.py line 9; Python slicing is per character): succeeds
exactly when `sd` is 8 decimal digits denoting a real date
(year ≥ 1). -/
def parseYMD (sd : String) : Option Date :=
  let a := sd.data.take 4
  let b := (sd.data.drop 4).take 2
  let c := sd.data.drop 6
  if a.length = 4 ∧ b.length = 2 ∧ c.length = 2 then
    match digitsToNat a, digitsToNat b, digitsToNat c with
    | some y, some m, some dy =>
        if 1 ≤ y ∧ 1 ≤ m ∧ m ≤ 12 ∧ 1 ≤ dy ∧ dy ≤ daysInMonth y m
        then some ⟨y, m, dy⟩ else none
    | _, _, _ => none
  else none

/-! ## `bseindia_apiScraper` — date-window resolution (bsescraper.py 6–32)

`searchDate` may be `None`, a string (a symbolic window token such as
`'week'`, or any other string), an `int`, or a `date`. -/

inductive SDate where
  | noneVal
  | str (s : String)
  | intVal (n : Int)
  | dateVal (d : Date)
deriving DecidableEq, Repr

/-- `daysDict = {'week': 7, 'month': 30, 'year': 365, 'day': 1}`
(bsescraper.py line 19). -/
def daysDict (s : String) : Option Nat :=
  if s = "week" then some 7
  else if s = "month" then some 30
  else if s = "year" then some 365
  else if s = "day" then some 1
  else none

/-- `str(sd)` for the non-`date` cases reaching `cleanDate`. -/
def sdStr : SDate → String
  | .noneVal => "None"
  | .str s => s
  | .intVal n => toString n
  | .dateVal d => isoDate d

/-- `cleanDate` (bsescraper.py 6–11): a `date` is rendered directly;
anything else is stringified, stripped, and re-parsed as 8-digit
`YYYYMMDD` (falling back to `date.today()` on failure); the result is
always `isoformat().replace('-', '')`. -/
def cleanDate (today : Date) (sd : SDate) : String :=
  match sd with
  | .dateVal d => isoCompact d
  | other =>
      match parseYMD (pyStrip (sdStr other)) with
      | some d => isoCompact d
      | none => isoCompact today

/-- The query-parameter dict threaded through the scraper.  Only the
keys the control logic reads or writes are modelled (`pageno`, `maxDepth`,
`strPrevDate`, `strToDate`, `strScrip`); `printMsgs` only toggles
console printing and is omitted.  `none` = key absent. -/
structure QParams where
  pageno : Option Nat := none
  maxDepth : Option Nat := none
  strPrevDate : Option String := none
  strToDate : Option String := none
  strScrip : Option String := none
deriving DecidableEq, Repr

/-- Lines 19–26: replace `None` by `date.today()`, map a `daysDict`
token to its day-count, and for a positive integer `N` write
`strPrevDate := cleanDate(today - N days)` and
`strToDate := cleanDate(today)` into the (mutable) `qParams`.  Returns
the updated `qParams` together with the `searchDate` value as it stands
just before line 26's `searchDate = cleanDate(searchDate)`. -/
def resolveQP (today : Date) (sd : SDate) (qp : QParams) : QParams × SDate :=
  let sd1 := match sd with | .noneVal => SDate.dateVal today | x => x
  let sd2 := match sd1 with
    | .str s => match daysDict s with
                | some n => SDate.intVal (n : Int)
                | none => SDate.str s
    | x => x
  match sd2 with
  | .intVal n =>
      if 0 < n then
        ({ qp with
            strPrevDate := some (cleanDate today (.dateVal (subDays today n.toNat))),
            strToDate := some (cleanDate today (.dateVal today)) },
          SDate.intVal n)
      else (qp, sd2)
  | x => (qp, x)

/-- Line 32's default merge for the two date-bound keys: the values that
actually enter the query string are `qParams.get(k, searchDate)`. -/
def effectiveBounds (qp : QParams) (searchDate8 : String) : String × String :=
  (qp.strPrevDate.getD searchDate8, qp.strToDate.getD searchDate8)

/-- The (from-date, to-date) pair placed in the query string by one
invocation, after lines 19–32. -/
def resolvedBounds (today : Date) (sd : SDate) (qp : QParams) : String × String :=
  effectiveBounds (resolveQP today sd qp).1 (cleanDate today (resolveQP today sd qp).2)

/-! ## `bseindia_apiScraper` — response classification (lines 50–61)

One attempt's outcome.  A row of the JSON `Table` is normally a dict
(modelled with the one key the controller reads, `TotalPageCnt`, plus an
opaque payload distinguishing rows); a list element that is not a dict
makes line 56's `curData[0].get` raise *after* `curData` was assigned at
line 55, which is the only way an `error` attempt can carry rows. -/

inductive Row where
  | dict (totalPageCnt : Option Nat) (payload : Nat)
  | nonDict (payload : Nat)
deriving DecidableEq, Repr

/-- A parsed JSON body: either `.json()` raised, or an object whose
`Table` key is absent (`none`) or a list of rows, with an optional
`Table1` (opaque payloads).  A present-but-non-list `Table` is covered
by the full response model `JsonBodyFull` below: on such a body under a
non-raising status the Python invocation escapes with an uncaught
exception and never returns a result dict, so `JsonBody` is exactly the
fragment on which the invocation delivers a structured result
(`classifyFull_toFull`, `classifyFull_classified_represented`), which is
what the controller embedding ranges over. -/
inductive JsonBody where
  | parseFail
  | obj (table : Option (List Row)) (table1 : Option (List Nat))
deriving DecidableEq, Repr

/-- One transport response: HTTP status code plus parsed body. -/
structure ApiResponse where
  statusCode : Nat
  body : JsonBody
deriving DecidableEq, Repr

/-- `requests.Response.raise_for_status()` raises exactly for
`400 <= status_code < 600`. -/
def raisesForStatus (code : Nat) : Bool := 400 ≤ code && code < 600

inductive Status where
  | success
  | error
deriving DecidableEq, Repr

/-- The secondary `Table1` block: `'N/A'` until line 55 runs, then the
raw JSON value; line 77 later unwraps a one-element list to a scalar. -/
inductive T1 where
  | na
  | null
  | seq (xs : List Nat)
  | scalar (x : Nat)
deriving DecidableEq, Repr

def T1.fromOpt : Option (List Nat) → T1
  | none => .null
  | some xs => .seq xs

/-- Line 77: `if isinstance(t1Data, list) and len(t1Data) == 1:
t1Data = t1Data[0]`. -/
def T1.unwrap : T1 → T1
  | .seq [x] => .scalar x
  | t => t

structure Attempt where
  status : Status
  curData : List Row
  totalPgs : Nat
  t1 : T1
deriving DecidableEq, Repr

/-- Lines 52–60: classify one response.  `success` needs `.json()` to
succeed and `Table` to be a list (otherwise `raise_for_status()` runs,
raising only on 4xx/5xx) and line 56's read of
`curData[0].get('TotalPageCnt', 0)` not to raise. -/
def classifyResponse (r : ApiResponse) : Attempt :=
  match r.body with
  | .parseFail => ⟨.error, [], 0, .na⟩
  | .obj none t1 =>
      if raisesForStatus r.statusCode then ⟨.error, [], 0, .na⟩
      else ⟨.success, [], 0, T1.fromOpt t1⟩
  | .obj (some rows) t1 =>
      match rows with
      | [] => ⟨.success, [], 0, T1.fromOpt t1⟩
      | Row.dict tp _ :: _ => ⟨.success, rows, tp.getD 0, T1.fromOpt t1⟩
      | Row.nonDict _ :: _ => ⟨.error, rows, 0, T1.fromOpt t1⟩

/-! ## Full response model including a non-list `Table` (line 54)

`json.loads` can put any JSON value under the `Table` key: absent, a
list, or a present non-list value (object, string, number, boolean or
null).  Line 54's `isinstance(jData.get('Table'), list)` check covers
all three shapes, so the full model must too. -/

/-- The `Table` value as line 54 sees it. -/
inductive TableVal where
  | absent
  | list (rows : List Row)
  | nonList
deriving DecidableEq, Repr

/-- A parsed JSON body over the full `Table` model. -/
inductive JsonBodyFull where
  | parseFail
  | obj (table : TableVal) (table1 : Option (List Nat))
deriving DecidableEq, Repr

/-- One transport response over the full body model. -/
structure ApiResponseFull where
  statusCode : Nat
  body : JsonBodyFull
deriving DecidableEq, Repr

/-- What one invocation's attempt delivers to its caller:
`classified att` means lines 52–61 produce `att` and the invocation
goes on to return or recurse normally; `crash` means an exception
escapes the invocation before any structured result is produced. -/
inductive AttemptOutcome where
  | classified (att : Attempt)
  | crash
deriving DecidableEq, Repr

/-- Lines 52–61 over the full body model, together with whether the
invocation can deliver a result at all.

For a present non-list `Table` under a *raising* status (4xx/5xx),
line 54 raises before line 55 runs, so the attempt is classified
`error` with `curData = []` — indistinguishable from an absent `Table`
at the same status.  Under a *non-raising* status no case returns:
line 55 binds `curData` to the non-list value, and every non-list
Python value then raises an uncaught exception before the invocation
can return — exhaustively: a truthy string/number/bool/dict breaks at
line 56 (`curData[0]` or the following `.get`) and a falsy
number/bool/null at line 58 (`len(curData)`), putting the attempt on
the `error` path, while `''` and `{}` are skipped by `if curData:` and
stay `success`; in *all* of these the invocation then dies at line 69
(`len(curData)` for number/bool/null when advancing), line 74 or
line 79 (`prevData[:] + curData[:]`: slicing a dict/number/bool/null
raises `TypeError`, and a string slice cannot be added to a list).  So
the caller never observes the intermediate classification, and the
outcome is `crash`. -/
def classifyFull (r : ApiResponseFull) : AttemptOutcome :=
  match r.body with
  | .parseFail => .classified ⟨.error, [], 0, .na⟩
  | .obj .absent t1 =>
      if raisesForStatus r.statusCode then .classified ⟨.error, [], 0, .na⟩
      else .classified ⟨.success, [], 0, T1.fromOpt t1⟩
  | .obj (.list rows) t1 =>
      .classified
        (match rows with
        | [] => ⟨.success, [], 0, T1.fromOpt t1⟩
        | Row.dict tp _ :: _ => ⟨.success, rows, tp.getD 0, T1.fromOpt t1⟩
        | Row.nonDict _ :: _ => ⟨.error, rows, 0, T1.fromOpt t1⟩)
  | .obj .nonList _ =>
      if raisesForStatus r.statusCode then .classified ⟨.error, [], 0, .na⟩
      else .crash

/-- Embedding of the crash-free body fragment into the full model. -/
def JsonBody.toFull : JsonBody → JsonBodyFull
  | .parseFail => .parseFail
  | .obj none t1 => .obj .absent t1
  | .obj (some rows) t1 => .obj (.list rows) t1

/-- Embedding of the crash-free response fragment into the full
model. -/
def ApiResponse.toFull (r : ApiResponse) : ApiResponseFull :=
  ⟨r.statusCode, r.body.toFull⟩

/-! ## `bseindia_apiScraper` — pagination/retry controller (lines 64–82)

The transport is an oracle mapping the attempt index (= the `depth` of
the invocation that issues it; each invocation performs exactly one
`requests.get`) to a response.  The Python self-recursion is total: the
guard `depth < maxDepth` (line 66) forces termination, so it is rendered
by structural recursion on the fuel `maxDepth + 1 - depth` (the exact
number of attempts still permitted); the source's guard is still checked
literally, and the fuel supplied by the entry point `bseindia_apiScraper`
can never run out before the guard fails (`scrapeGo_fuel_eq` below). -/

/-- Lines 65–69: the `nextPg` decision.  `none` = Python `None`.
Note the error branch: `nextPg = curPg + int(len(curData) > 0)` — with
zero rows this *re-fetches the same page* (`nextPg = curPg`), which is
truthy whenever `curPg ≠ 0`. -/
def decideNext (depth maxDepth curPg : Nat) (att : Attempt) (code : Nat) :
    Option Nat :=
  if depth < maxDepth then
    if att.status = Status.success ∧ curPg < att.totalPgs then some (curPg + 1)
    else if att.status = Status.error ∧ code ≠ 200 then
      some (curPg + (if 0 < att.curData.length then 1 else 0))
    else none
  else none

/-- The dict returned at lines 78–81 (minus the two diagnostic message
strings; `latest_rStatus` is represented by its status code). -/
structure ScrapeResult where
  data : List Row
  table1 : T1
  status : Status
  latestRStatus : Nat
  depth : Nat
  maxDepth : Nat
  qParams : QParams
deriving DecidableEq, Repr

/-- Terminal result of one invocation (lines 76–82):
`data = prevData[:] + curData[:]`, `Table1` unwrapped, and the
(possibly just-mutated) `qParams` returned as-is. -/
def mkResult (prevData : List Row) (att : Attempt) (resp : ApiResponse)
    (qp : QParams) (depth maxDepth : Nat) : ScrapeResult :=
  { data := prevData ++ att.curData, table1 := att.t1.unwrap,
    status := att.status, latestRStatus := resp.statusCode,
    depth := depth, maxDepth := maxDepth, qParams := qp }

/-- One full invocation of `bseindia_apiScraper`, fuelled.  Mirrors the
source order: read `maxDepth` and `pageno` from `qParams`, resolve the
date window (possibly mutating `qParams`), issue the transport call,
classify it, decide `nextPg`, and either recurse with
`qParams['pageno'] := nextPg`, `prevData + curData`, `depth + 1` and the
stringified `searchDate`, or return. -/
def scrapeGo (today : Date) (oracle : Nat → ApiResponse) :
    Nat → SDate → QParams → List Row → Nat → ScrapeResult
  | 0, sd, qp, prevData, depth =>
      mkResult prevData (classifyResponse (oracle depth)) (oracle depth)
        (resolveQP today sd qp).1 depth (qp.maxDepth.getD 998)
  | g + 1, sd, qp, prevData, depth =>
      let maxDepth := qp.maxDepth.getD 998
      let curPg := qp.pageno.getD 1
      let rq := resolveQP today sd qp
      let searchDate8 := cleanDate today rq.2
      let resp := oracle depth
      let att := classifyResponse resp
      match decideNext depth maxDepth curPg att resp.statusCode with
      | some v =>
          if v ≠ 0 then
            scrapeGo today oracle g (SDate.str searchDate8)
              { rq.1 with pageno := some v } (prevData ++ att.curData)
              (depth + 1)
          else mkResult prevData att resp rq.1 depth maxDepth
      | none => mkResult prevData att resp rq.1 depth maxDepth

/-- `bseindia_apiScraper(searchDate, qParams, prevData, depth)`. -/
def bseindia_apiScraper (today : Date) (oracle : Nat → ApiResponse)
    (searchDate : SDate) (qParams : QParams) (prevData : List Row)
    (depth : Nat) : ScrapeResult :=
  scrapeGo today oracle (qParams.maxDepth.getD 998 + 1 - depth)
    searchDate qParams prevData depth

/-- Specification-side ledger: the row list delivered by each page
attempt actually visited, in arrival order (same recursion structure as
`scrapeGo`). -/
def pagesVisited (today : Date) (oracle : Nat → ApiResponse) :
    Nat → SDate → QParams → Nat → List (List Row)
  | 0, _, _, depth => [(classifyResponse (oracle depth)).curData]
  | g + 1, sd, qp, depth =>
      let maxDepth := qp.maxDepth.getD 998
      let curPg := qp.pageno.getD 1
      let rq := resolveQP today sd qp
      let searchDate8 := cleanDate today rq.2
      let resp := oracle depth
      let att := classifyResponse resp
      match decideNext depth maxDepth curPg att resp.statusCode with
      | some v =>
          if v ≠ 0 then
            att.curData :: pagesVisited today oracle g (SDate.str searchDate8)
              { rq.1 with pageno := some v } (depth + 1)
          else [att.curData]
      | none => [att.curData]

/-- Number of transport calls a run made: every invocation performs
exactly one `requests.get`, and each recursion adds one invocation, so a
run that started at `startDepth` and returned `r` made
`r.depth - startDepth + 1` calls. -/
def callsMade (startDepth : Nat) (r : ScrapeResult) : Nat :=
  r.depth - startDepth + 1

/-- Python's mutable default argument `qParams={}`: a call site that
omits `qParams` receives the module-level shared dict, and the function
mutates it in place (lines 24–25 and 71); the dict embedded in the
returned result *is* that shared dict, so the default's state after the
call is `r.qParams`. -/
def callSharedDefault (today : Date) (oracle : Nat → ApiResponse)
    (sd : SDate) (sharedQP : QParams) : ScrapeResult × QParams :=
  let r := bseindia_apiScraper today oracle sd sharedQP [] 0
  (r, r.qParams)

/-! ## `scrape_day_wise` (bse_announcements_tab.py 50–82)

One fetch unit per calendar day from `start_date` to `end_date`
inclusive; every unit builds a *fresh* `q_params` dict, calls the
controller with `searchDate=current_date`, tags each returned row with
`Search_Date = current_date.isoformat()` (and the scrip code, when one
was given), and appends; an empty `result['data']` contributes nothing
(and on `error` only a warning is printed).  The `while current <= end`
loop over `date` objects is rendered over day ordinals (on which Python
date comparison and `+= timedelta(days=1)` operate exactly); the
transport family gives each day's invocation its own oracle.  A tagged
row is modelled as the row paired with its tags (in Python the tag keys
are written into the row dict itself; writing into a non-dict row would
raise, which — like the crash — is outside this model: the claims under
study only tag dict rows). -/

structure DayRow where
  row : Row
  search_Date : String
  scrip_Code_Searched : Option String
deriving DecidableEq, Repr

/-- The fresh per-day `q_params = {'printMsgs': …}` plus the optional
`strScrip` (lines 66–68). -/
def dayQP (scrip : Option String) : QParams := { strScrip := scrip }

/-- One loop iteration's contribution (lines 70–76): run the controller
for the day with ordinal `curOrd`, and, if `result['data']` is
non-empty, tag and append its rows. -/
def dayUnit (transport : Nat → Nat → ApiResponse) (today : Date)
    (scrip : Option String) (curOrd : Nat) : List DayRow :=
  let r := bseindia_apiScraper today (transport curOrd)
    (SDate.dateVal (fromDays curOrd)) (dayQP scrip) [] 0
  if r.data ≠ [] then
    r.data.map (fun row => ⟨row, isoDate (fromDays curOrd), scrip⟩)
  else []

/-- The `while current_date <= end_date` loop (lines 63–80), fuelled by
the number of remaining days. -/
def dayWiseLoop (transport : Nat → Nat → ApiResponse) (today : Date)
    (scrip : Option String) (endOrd : Nat) : Nat → Nat → List DayRow
  | 0, _ => []
  | fuel + 1, cur =>
      if cur ≤ endOrd then
        dayUnit transport today scrip cur ++
          dayWiseLoop transport today scrip endOrd fuel (cur + 1)
      else []

/-- `scrape_day_wise(start_date, end_date, scrip_code)`. -/
def scrape_day_wise (transport : Nat → Nat → ApiResponse) (today : Date)
    (startD endD : Date) (scrip : Option String) : List DayRow :=
  dayWiseLoop transport today scrip (toDays endD)
    (toDays endD + 1 - toDays startD) (toDays startD)

/-! ## `get_attachment_url` (bse_announcements_tab.py 147–161)

`threshold_date = today - timedelta(days=2)`; a row with a non-null
`ATTACHMENTNAME` whose parsed `News_submission_dt` is `>= threshold`
gets the `AttachLive` URL, any other row with an attachment gets
`AttachHis`, and a row without an attachment gets `None`.
`News_submission_dt_parsed` is `pd.to_datetime(…, errors='coerce')`:
`none` models NaT (unparseable). -/

def attachLivePrefix : String :=
  "https://www.bseindia.com/xml-data/corpfiling/AttachLive/"

def attachHisPrefix : String :=
  "https://www.bseindia.com/xml-data/corpfiling/AttachHis/"

def get_attachment_url (today : Date) (attachmentName : Option String)
    (newsDtParsed : Option Date) : Option String :=
  match attachmentName with
  | some nm =>
      match newsDtParsed with
      | some d =>
          if dateLeB (subDays today 2) d then some (attachLivePrefix ++ nm)
          else some (attachHisPrefix ++ nm)
      | none => some (attachHisPrefix ++ nm)
  | none => none

/-! ## NSE row normalizer (webscraper.py 126–169)

The per-row extraction step of `scrape_nse_announcements_robust`: a
table row is a list of cells (text plus, for the attachment cell, the
`href` of a contained anchor if one exists — `find_element` raising when
there is none; `get_attribute("href")` is modelled as returning the
resolved URL string, i.e. an anchor element carrying no `href`
attribute is not modelled).  The produced announcement dict is modelled
as an association list, mirroring the literal at lines 143–150 and the
two in-place updates. -/

structure Cell where
  text : String
  anchorHref : Option String := none
deriving DecidableEq, Repr

/-- Whether `pat` occurs as a contiguous sublist. -/
def subOccurs : List Char → List Char → Bool
  | _, [] => true
  | [], _ :: _ => false
  | h :: t, p :: ps => (p :: ps).isPrefixOf (h :: t) || subOccurs t (p :: ps)

/-- Python `needle in hay` on strings. -/
def containsSub (hay needle : String) : Bool :=
  subOccurs hay.data needle.data

/-- In-place dict update `d[k] = v` on an association list (replaces the
binding if the key exists, else appends). -/
def dictSet : List (String × String) → String → String →
    List (String × String)
  | [], k, v => [(k, v)]
  | (k1, v1) :: rest, k, v =>
      if k1 = k then (k, v) :: rest else (k1, v1) :: dictSet rest k v

/-- Dict lookup `d.get(k)`. -/
def dictGet (d : List (String × String)) (k : String) : Option String :=
  (d.find? (fun kv => kv.1 = k)).map (fun kv => kv.2)

/-- The canonical output schema of the normalizer. -/
def canonicalFields : List String :=
  ["Symbol", "Company Name", "Subject", "Details", "Attachment Link",
    "Broadcast Date"]

def emptyCell : Cell := ⟨"", none⟩

/-- Lines 136–169: build one announcement record from a row, or skip the
row (`none`): rows with fewer than 7 cells, loading/no-record rows, and
rows whose `Subject` is empty or `'-'` produce no record. -/
def extractAnnouncement (cells : List Cell) (rowText : String) :
    Option (List (String × String)) :=
  if 7 ≤ cells.length then
    if containsSub (pyLower rowText) "no record" ||
        containsSub (pyLower rowText) "loading" then none
    else
      let a0 : List (String × String) :=
        [("Symbol", pyStrip (cells.getD 0 emptyCell).text),
          ("Company Name", pyStrip (cells.getD 1 emptyCell).text),
          ("Subject", pyStrip (cells.getD 2 emptyCell).text),
          ("Details", pyStrip (cells.getD 3 emptyCell).text),
          ("Attachment Link", ""),
          ("Broadcast Date", "")]
      let a1 := match (cells.getD 4 emptyCell).anchorHref with
        | some h => dictSet a0 "Attachment Link" h
        | none => a0
      let a2 := if 6 < cells.length then
          dictSet a1 "Broadcast Date" (pyStrip (cells.getD 6 emptyCell).text)
        else a1
      let subj := (dictGet a2 "Subject").getD ""
      if subj ≠ "" ∧ subj ≠ "-" then some a2 else none
  else none

/-! ## Concrete fixtures

Small concrete transports and parameter dicts used to instantiate the
theorems below on closed inputs. -/

/-- A fixed "today". -/
def dateT : Date := ⟨2024, 5, 10⟩

/-- Every attempt answers 200 with one row announcing 2 total pages
(the row payload records the attempt index). -/
def oracleTwoPages : Nat → ApiResponse :=
  fun d => ⟨200, .obj (some [Row.dict (some 2) d]) none⟩

/-- Every attempt answers 200 with one row announcing 1 total page. -/
def oracleOnePage : Nat → ApiResponse :=
  fun d => ⟨200, .obj (some [Row.dict (some 1) d]) none⟩

/-- Every attempt fails: HTTP 404 and an unparseable body. -/
def oracle404 : Nat → ApiResponse := fun _ => ⟨404, .parseFail⟩

/-- Every attempt answers a clean 200 whose JSON object has no `Table`
key. -/
def oracleNoTable200 : Nat → ApiResponse := fun _ => ⟨200, .obj none none⟩

/-- First attempt: HTTP 500 whose `Table` is a list with a non-dict
first element (line 56 raises after `curData` is set); later attempts
succeed with a single final page. -/
def oracleRowsThenOk : Nat → ApiResponse :=
  fun d => if d = 0 then ⟨500, .obj (some [Row.nonDict 9]) none⟩
    else ⟨200, .obj (some [Row.dict (some 1) d]) none⟩

/-- Per-day transport: every day's first attempt succeeds with one row
announcing 2 total pages, and the second page's fetch fails to parse
under a 200 status — so each day's run ends with `status = 'error'`
while carrying the first page's row. -/
def transportPartialFail : Nat → Nat → ApiResponse :=
  fun _ d => if d = 0 then ⟨200, .obj (some [Row.dict (some 2) 7]) none⟩
    else ⟨200, .parseFail⟩

/-- Per-day transport where every attempt is a one-page success. -/
def transportOnePage : Nat → Nat → ApiResponse := fun _ => oracleOnePage

/-- A `qParams` dict with `maxDepth` overridden to 2. -/
def qpMax2 : QParams := { maxDepth := some 2 }

/-- A `qParams` dict with `maxDepth` overridden to 3. -/
def qpMax3 : QParams := { maxDepth := some 3 }

/-- A seven-cell NSE table row with an attachment anchor. -/
def cellsFull : List Cell :=
  [⟨"AXISBANK", none⟩, ⟨"Axis Bank Limited", none⟩, ⟨"Results", none⟩,
    ⟨"Board meeting outcome", none⟩, ⟨"att", some "https://x/doc.pdf"⟩,
    ⟨"", none⟩, ⟨"09-May-2024", none⟩]

/-- A seven-cell NSE table row with no anchor in the attachment cell. -/
def cellsNoAnchor : List Cell :=
  [⟨"AXISBANK", none⟩, ⟨"Axis Bank Limited", none⟩, ⟨"Results", none⟩,
    ⟨"Board meeting outcome", none⟩, ⟨"att", none⟩,
    ⟨"", none⟩, ⟨"09-May-2024", none⟩]

/-! ## Helper lemmas about the controller -/

theorem resolveQP_maxDepth (today : Date) (sd : SDate) (qp : QParams) :
    ((resolveQP today sd qp).1).maxDepth = qp.maxDepth := by
  cases sd <;> simp only [resolveQP] <;> repeat' split
  all_goals rfl

theorem resolveQP_pageno (today : Date) (sd : SDate) (qp : QParams) :
    ((resolveQP today sd qp).1).pageno = qp.pageno := by
  cases sd <;> simp only [resolveQP] <;> repeat' split
  all_goals rfl

/-- Line 66: once `depth >= maxDepth`, `nextPg` stays `None`. -/
theorem decideNext_none_of_ge (depth maxDepth curPg : Nat) (att : Attempt)
    (code : Nat) (h : maxDepth ≤ depth) :
    decideNext depth maxDepth curPg att code = none := by
  simp [decideNext, Nat.not_lt.mpr h]

/-- Line 67, advancing side. -/
theorem decideNext_success_adv (depth maxDepth curPg : Nat) (att : Attempt)
    (code : Nat) (hd : depth < maxDepth) (hs : att.status = Status.success)
    (hp : curPg < att.totalPgs) :
    decideNext depth maxDepth curPg att code = some (curPg + 1) := by
  simp [decideNext, hd, hs, hp]

/-- Line 67, stopping side (a `success` attempt with no further pages
sets no `nextPg`). -/
theorem decideNext_success_stop (depth maxDepth curPg : Nat) (att : Attempt)
    (code : Nat) (hs : att.status = Status.success)
    (hp : ¬ curPg < att.totalPgs) :
    decideNext depth maxDepth curPg att code = none := by
  simp [decideNext, hs, hp]

/-- Lines 68–69: an `error` attempt with a non-200 transport code sets
`nextPg = curPg + int(len(curData) > 0)`. -/
theorem decideNext_error_non200 (depth maxDepth curPg : Nat) (att : Attempt)
    (code : Nat) (hd : depth < maxDepth) (hs : att.status = Status.error)
    (hc : code ≠ 200) :
    decideNext depth maxDepth curPg att code =
      some (curPg + (if 0 < att.curData.length then 1 else 0)) := by
  simp [decideNext, hd, hs, hc]

/-- Lines 68–69: an `error` attempt whose transport code was 200 sets no
`nextPg`. -/
theorem decideNext_error_200 (depth maxDepth curPg : Nat) (att : Attempt)
    (hd : depth < maxDepth) (hs : att.status = Status.error) :
    decideNext depth maxDepth curPg att 200 = none := by
  simp [decideNext, hd, hs]

/-- Any invocation whose `depth` already reached `maxDepth` returns the
terminal result at once — no advance and no retry, whatever the fuel. -/
theorem scrapeGo_at_maxDepth (today : Date) (oracle : Nat → ApiResponse)
    (gas : Nat) (sd : SDate) (qp : QParams) (prev : List Row) (depth : Nat)
    (h : qp.maxDepth.getD 998 ≤ depth) :
    scrapeGo today oracle gas sd qp prev depth =
      mkResult prev (classifyResponse (oracle depth)) (oracle depth)
        (resolveQP today sd qp).1 depth (qp.maxDepth.getD 998) := by
  cases gas with
  | zero => simp [scrapeGo]
  | succ g =>
      simp only [scrapeGo]
      rw [decideNext_none_of_ge _ _ _ _ _ h]

/-- The fuel argument is irrelevant as soon as it covers the remaining
`maxDepth - depth` budget: `scrapeGo` then computes the unique fixpoint
of the source recursion.  In particular the entry point's fuel
`maxDepth + 1 - depth` is always enough. -/
theorem scrapeGo_fuel_eq (today : Date) (oracle : Nat → ApiResponse) :
    ∀ (g1 g2 : Nat) (sd : SDate) (qp : QParams) (prev : List Row)
      (depth : Nat),
    qp.maxDepth.getD 998 ≤ g1 + depth → qp.maxDepth.getD 998 ≤ g2 + depth →
    scrapeGo today oracle g1 sd qp prev depth =
      scrapeGo today oracle g2 sd qp prev depth := by
  intro g1
  induction g1 with
  | zero =>
      intro g2 sd qp prev depth h1 h2
      rw [scrapeGo_at_maxDepth today oracle 0 sd qp prev depth (by omega),
        scrapeGo_at_maxDepth today oracle g2 sd qp prev depth (by omega)]
  | succ g ih =>
      intro g2 sd qp prev depth h1 h2
      by_cases hd : qp.maxDepth.getD 998 ≤ depth
      · rw [scrapeGo_at_maxDepth today oracle (g + 1) sd qp prev depth hd,
          scrapeGo_at_maxDepth today oracle g2 sd qp prev depth hd]
      · cases g2 with
        | zero => omega
        | succ h =>
            simp only [scrapeGo]
            rcases hnext : decideNext depth (qp.maxDepth.getD 998)
              (qp.pageno.getD 1) (classifyResponse (oracle depth))
              (oracle depth).statusCode with _ | v
            · simp only [hnext]
            · simp only [hnext]
              by_cases hv : v ≠ 0
              · rw [if_pos hv, if_pos hv]
                exact ih h (SDate.str (cleanDate today (resolveQP today sd qp).2))
                  { (resolveQP today sd qp).1 with pageno := some v }
                  (prev ++ (classifyResponse (oracle depth)).curData) (depth + 1)
                  (by simp only [resolveQP_maxDepth]; omega)
                  (by simp only [resolveQP_maxDepth]; omega)
              · rw [if_neg hv, if_neg hv]

/-- The returned `depth` never exceeds `max(initial depth, maxDepth)`. -/
theorem scrapeGo_depth_le (today : Date) (oracle : Nat → ApiResponse) :
    ∀ (gas : Nat) (sd : SDate) (qp : QParams) (prev : List Row)
      (depth : Nat),
    (scrapeGo today oracle gas sd qp prev depth).depth ≤
      max depth (qp.maxDepth.getD 998) := by
  intro gas
  induction gas with
  | zero =>
      intro sd qp prev depth
      simp [scrapeGo, mkResult]
  | succ g ih =>
      intro sd qp prev depth
      simp only [scrapeGo]
      split
      · rename_i v heq
        split
        · rename_i hv
          have hlt : depth < qp.maxDepth.getD 998 := by
            by_contra hge
            rw [decideNext_none_of_ge _ _ _ _ _ (Nat.not_lt.mp hge)] at heq
            exact Option.noConfusion heq
          have h2 := ih (SDate.str (cleanDate today (resolveQP today sd qp).2))
            { (resolveQP today sd qp).1 with pageno := some v }
            (prev ++ (classifyResponse (oracle depth)).curData) (depth + 1)
          refine le_trans h2 ?_
          dsimp only
          rw [resolveQP_maxDepth]
          omega
        · simp [mkResult]
      · simp [mkResult]

/-- The accumulated `data` of a run is the initial `prevData` followed
by the concatenation, in arrival order, of the row lists of exactly the
pages visited. -/
theorem scrapeGo_data_eq (today : Date) (oracle : Nat → ApiResponse) :
    ∀ (gas : Nat) (sd : SDate) (qp : QParams) (prev : List Row)
      (depth : Nat),
    (scrapeGo today oracle gas sd qp prev depth).data =
      prev ++ (pagesVisited today oracle gas sd qp depth).flatten := by
  intro gas
  induction gas with
  | zero =>
      intro sd qp prev depth
      simp [scrapeGo, pagesVisited, mkResult]
  | succ g ih =>
      intro sd qp prev depth
      simp only [scrapeGo, pagesVisited]
      split
      · rename_i v heq
        split
        · rename_i hv
          rw [ih]
          simp [List.append_assoc]
        · simp [mkResult]
      · simp [mkResult]

/-- One advancing step of the source recursion (lines 70–74): when
`nextPg` is a truthy value `v`, the invocation equals the recursive
invocation with `qParams['pageno'] := v`, the current rows appended, the
depth incremented, and the stringified `searchDate`. -/
theorem bseScraper_step (today : Date) (oracle : Nat → ApiResponse)
    (sd : SDate) (qp : QParams) (prev : List Row) (depth v : Nat)
    (hnext : decideNext depth (qp.maxDepth.getD 998) (qp.pageno.getD 1)
      (classifyResponse (oracle depth)) (oracle depth).statusCode = some v)
    (hv : v ≠ 0) :
    bseindia_apiScraper today oracle sd qp prev depth =
      bseindia_apiScraper today oracle
        (SDate.str (cleanDate today (resolveQP today sd qp).2))
        { (resolveQP today sd qp).1 with pageno := some v }
        (prev ++ (classifyResponse (oracle depth)).curData) (depth + 1) := by
  have hlt : depth < qp.maxDepth.getD 998 := by
    by_contra hge
    rw [decideNext_none_of_ge _ _ _ _ _ (Nat.not_lt.mp hge)] at hnext
    exact Option.noConfusion hnext
  unfold bseindia_apiScraper
  rw [show qp.maxDepth.getD 998 + 1 - depth =
    (qp.maxDepth.getD 998 - depth) + 1 by omega]
  simp only [scrapeGo, hnext]
  rw [if_pos hv]
  congr 1
  simp only [resolveQP_maxDepth]
  omega

/-- One terminating step of the source recursion (lines 76–82): when
`nextPg` stays `None`, the invocation returns the terminal dict. -/
theorem bseScraper_stop (today : Date) (oracle : Nat → ApiResponse)
    (sd : SDate) (qp : QParams) (prev : List Row) (depth : Nat)
    (hnext : decideNext depth (qp.maxDepth.getD 998) (qp.pageno.getD 1)
      (classifyResponse (oracle depth)) (oracle depth).statusCode = none) :
    bseindia_apiScraper today oracle sd qp prev depth =
      mkResult prev (classifyResponse (oracle depth)) (oracle depth)
        (resolveQP today sd qp).1 depth (qp.maxDepth.getD 998) := by
  unfold bseindia_apiScraper
  rcases hg : qp.maxDepth.getD 998 + 1 - depth with _ | g
  · simp [scrapeGo]
  · simp only [scrapeGo, hnext]

/-- Entry-point form of `scrapeGo_at_maxDepth`. -/
theorem bseScraper_at_maxDepth (today : Date) (oracle : Nat → ApiResponse)
    (sd : SDate) (qp : QParams) (prev : List Row) (depth : Nat)
    (h : qp.maxDepth.getD 998 ≤ depth) :
    bseindia_apiScraper today oracle sd qp prev depth =
      mkResult prev (classifyResponse (oracle depth)) (oracle depth)
        (resolveQP today sd qp).1 depth (qp.maxDepth.getD 998) := by
  unfold bseindia_apiScraper
  exact scrapeGo_at_maxDepth today oracle _ sd qp prev depth h

/-! ## Claims -/

/-- **C1.**  For every invocation of `bseindia_apiScraper` the depth
counter never exceeds `maxDepth` (read from `qParams`, default 998):
the returned depth is bounded by `max(initial depth, maxDepth)`;
whenever `depth ≥ maxDepth` no advance or retry happens regardless of
status and the invocation immediately returns the accumulated rows plus
the current attempt's rows; and a run makes at most `maxDepth + 1` page
attempts — the recursion always terminates (the embedding is a total
function, its fuel being the termination measure of the source's
recursion, cf. `scrapeGo_fuel_eq`). -/
theorem claim_C1_depth_never_exceeds_maxDepth (today : Date)
    (oracle : Nat → ApiResponse) (searchDate : SDate) (qParams : QParams)
    (prevData : List Row) (depth : Nat) :
    (bseindia_apiScraper today oracle searchDate qParams prevData
        depth).depth ≤ max depth (qParams.maxDepth.getD 998) ∧
    (qParams.maxDepth.getD 998 ≤ depth →
      (bseindia_apiScraper today oracle searchDate qParams prevData
          depth).depth = depth ∧
      (bseindia_apiScraper today oracle searchDate qParams prevData
          depth).data =
        prevData ++ (classifyResponse (oracle depth)).curData) ∧
    callsMade depth
        (bseindia_apiScraper today oracle searchDate qParams prevData
          depth) ≤ qParams.maxDepth.getD 998 + 1 := by
  refine ⟨?_, ?_, ?_⟩
  · exact scrapeGo_depth_le today oracle _ searchDate qParams prevData depth
  · intro h
    rw [bseScraper_at_maxDepth today oracle searchDate qParams prevData
      depth h]
    exact ⟨rfl, rfl⟩
  · by_cases h : qParams.maxDepth.getD 998 ≤ depth
    · rw [bseScraper_at_maxDepth today oracle searchDate qParams prevData
        depth h]
      simp [callsMade, mkResult]
    · have hb := scrapeGo_depth_le today oracle
        (qParams.maxDepth.getD 998 + 1 - depth) searchDate qParams prevData
        depth
      unfold bseindia_apiScraper
      unfold callsMade
      omega

/-- Closed instance of C1: with `maxDepth = 3` and an initial depth of
5, the run stops at once — depth 5 returned, one transport call, data
unchanged apart from the single attempt's rows. -/
theorem claim_C1_witness :
    (bseindia_apiScraper dateT oracleTwoPages (.dateVal dateT) qpMax3 []
        5).depth ≤ max 5 3 ∧
    ((bseindia_apiScraper dateT oracleTwoPages (.dateVal dateT) qpMax3 []
        5).depth = 5 ∧
      (bseindia_apiScraper dateT oracleTwoPages (.dateVal dateT) qpMax3 []
          5).data = [] ++ (classifyResponse (oracleTwoPages 5)).curData) ∧
    callsMade 5
        (bseindia_apiScraper dateT oracleTwoPages (.dateVal dateT) qpMax3 []
          5) ≤ 3 + 1 := by
  have h := claim_C1_depth_never_exceeds_maxDepth dateT oracleTwoPages
    (.dateVal dateT) qpMax3 [] 5
  exact ⟨h.1, h.2.1 (by decide), h.2.2⟩

/-- **C4.**  The `data` field of the final result is exactly the initial
`prevData` followed by the concatenation, in page-arrival order, of the
row lists of the pages actually visited (`pagesVisited`): each visited
page's rows appear exactly once, in order, with nothing else — so the
final row count is the sum of the per-page row counts. -/
theorem claim_C4_data_is_page_concatenation (today : Date)
    (oracle : Nat → ApiResponse) (searchDate : SDate) (qParams : QParams)
    (prevData : List Row) (depth : Nat) :
    (bseindia_apiScraper today oracle searchDate qParams prevData
        depth).data =
      prevData ++ (pagesVisited today oracle
        (qParams.maxDepth.getD 998 + 1 - depth) searchDate qParams
        depth).flatten ∧
    (bseindia_apiScraper today oracle searchDate qParams prevData
        depth).data.length =
      prevData.length + ((pagesVisited today oracle
        (qParams.maxDepth.getD 998 + 1 - depth) searchDate qParams
        depth).map List.length).sum := by
  have h := scrapeGo_data_eq today oracle
    (qParams.maxDepth.getD 998 + 1 - depth) searchDate qParams prevData depth
  refine ⟨h, ?_⟩
  unfold bseindia_apiScraper
  rw [h]
  simp [List.length_flatten]

/-- **C2, counterexample.**  The claim says a non-200 error attempt with
zero parsed rows makes the controller stop and return.  It does not:
with every attempt failing (HTTP 404, unparseable body) and
`maxDepth = 2`, the run performs three transport calls (final depth 2),
re-fetching page 1 each time (`qParams['pageno']` was written back as
1 = `curPg`), instead of stopping after the first attempt (which would
have returned depth 0). -/
theorem claim_C2_counterexample :
    (classifyResponse (oracle404 0)).status = Status.error ∧
    (oracle404 0).statusCode ≠ 200 ∧
    (classifyResponse (oracle404 0)).curData = [] ∧
    (bseindia_apiScraper dateT oracle404 (.dateVal dateT) qpMax2 []
        0).depth = 2 ∧
    (bseindia_apiScraper dateT oracle404 (.dateVal dateT) qpMax2 []
        0).depth ≠ 0 ∧
    (bseindia_apiScraper dateT oracle404 (.dateVal dateT) qpMax2 []
        0).qParams.pageno = some 1 := by
  decide

/-- **C2, amended.**  When an attempt is classified `error` and
`depth < maxDepth`, the controller *continues* whenever the transport
status code was not 200: it advances to `curPg + 1` if at least one row
was parsed in this attempt, and otherwise re-issues the *same* page
`curPg` (provided `curPg ≠ 0`; the default is 1); it stops and returns
the accumulated result only when the error came with status code 200. -/
theorem claim_C2_amended_error_advance_rule (today : Date)
    (oracle : Nat → ApiResponse) (sd : SDate) (qp : QParams)
    (prev : List Row) (depth : Nat)
    (hd : depth < qp.maxDepth.getD 998)
    (hs : (classifyResponse (oracle depth)).status = Status.error) :
    ((oracle depth).statusCode ≠ 200 →
      (classifyResponse (oracle depth)).curData ≠ [] →
      bseindia_apiScraper today oracle sd qp prev depth =
        bseindia_apiScraper today oracle
          (SDate.str (cleanDate today (resolveQP today sd qp).2))
          { (resolveQP today sd qp).1 with
            pageno := some (qp.pageno.getD 1 + 1) }
          (prev ++ (classifyResponse (oracle depth)).curData)
          (depth + 1)) ∧
    ((oracle depth).statusCode ≠ 200 →
      (classifyResponse (oracle depth)).curData = [] →
      qp.pageno.getD 1 ≠ 0 →
      bseindia_apiScraper today oracle sd qp prev depth =
        bseindia_apiScraper today oracle
          (SDate.str (cleanDate today (resolveQP today sd qp).2))
          { (resolveQP today sd qp).1 with
            pageno := some (qp.pageno.getD 1) }
          (prev ++ (classifyResponse (oracle depth)).curData)
          (depth + 1)) ∧
    ((oracle depth).statusCode = 200 →
      bseindia_apiScraper today oracle sd qp prev depth =
        mkResult prev (classifyResponse (oracle depth)) (oracle depth)
          (resolveQP today sd qp).1 depth (qp.maxDepth.getD 998)) := by
  refine ⟨?_, ?_, ?_⟩
  · intro hc hrows
    have hnext := decideNext_error_non200 depth (qp.maxDepth.getD 998)
      (qp.pageno.getD 1) (classifyResponse (oracle depth))
      (oracle depth).statusCode hd hs hc
    rw [if_pos (List.length_pos.mpr hrows)] at hnext
    exact bseScraper_step today oracle sd qp prev depth _ hnext
      (Nat.succ_ne_zero _)
  · intro hc hrows hpz
    have hnext := decideNext_error_non200 depth (qp.maxDepth.getD 998)
      (qp.pageno.getD 1) (classifyResponse (oracle depth))
      (oracle depth).statusCode hd hs hc
    rw [if_neg (by simp [hrows])] at hnext
    rw [Nat.add_zero] at hnext
    exact bseScraper_step today oracle sd qp prev depth _ hnext hpz
  · intro hc
    refine bseScraper_stop today oracle sd qp prev depth ?_
    rw [hc]
    exact decideNext_error_200 depth (qp.maxDepth.getD 998)
      (qp.pageno.getD 1) (classifyResponse (oracle depth)) hd hs

/-- Closed instance of the amended C2: a 500-status attempt whose
`Table` list survived parsing but whose first element broke line 56
advances to page 2 carrying the partial rows. -/
theorem claim_C2_amended_witness :
    bseindia_apiScraper dateT oracleRowsThenOk (.dateVal dateT) {} [] 0 =
      bseindia_apiScraper dateT oracleRowsThenOk
        (SDate.str (cleanDate dateT
          (resolveQP dateT (.dateVal dateT) ({} : QParams)).2))
        { (resolveQP dateT (.dateVal dateT) ({} : QParams)).1 with
          pageno := some 2 }
        ([] ++ (classifyResponse (oracleRowsThenOk 0)).curData) 1 := by
  have h := claim_C2_amended_error_advance_rule dateT oracleRowsThenOk
    (.dateVal dateT) {} [] 0 (by decide) (by decide)
  exact h.1 (by decide) (by decide)

/-- **C3, counterexample.**  The claim says a payload whose `Table`
field is absent is classified `error`.  It is not when the transport
status is a clean 200: `raise_for_status()` (line 54) does not raise
below 400, so the attempt falls through to `status = 'success'` with
zero rows. -/
theorem claim_C3_counterexample :
    (oracleNoTable200 0).body = JsonBody.obj none none ∧
    (oracleNoTable200 0).statusCode = 200 ∧
    (bseindia_apiScraper dateT oracleNoTable200 (.dateVal dateT) {} []
        0).status = Status.success ∧
    (bseindia_apiScraper dateT oracleNoTable200 (.dateVal dateT) {} []
        0).status ≠ Status.error ∧
    (bseindia_apiScraper dateT oracleNoTable200 (.dateVal dateT) {} []
        0).data = [] := by
  decide

/-- On the crash-free fragment, the full-model classification agrees
with the controller's: `JsonBody` responses are exactly those whose
invocation delivers the attempt the controller embedding computes. -/
theorem classifyFull_toFull (r : ApiResponse) :
    classifyFull r.toFull = AttemptOutcome.classified (classifyResponse r) := by
  rcases r with ⟨code, body⟩
  rcases body with _ | ⟨table, t1⟩
  · rfl
  · rcases table with _ | rows
    · simp only [ApiResponse.toFull, JsonBody.toFull, classifyFull,
        classifyResponse]
      split <;> rfl
    · rfl

/-- Conversely, every full-model response whose invocation delivers a
classified attempt is simulated by a crash-free-fragment response with
the same status code and the same classification — so restricting the
controller's oracle to `JsonBody` loses no returning behaviour.  (The
one case outside the fragment's image, a non-list `Table` under
4xx/5xx, classifies identically to an absent `Table` at that code.) -/
theorem classifyFull_classified_represented (rf : ApiResponseFull)
    (att : Attempt) (h : classifyFull rf = AttemptOutcome.classified att) :
    ∃ r : ApiResponse, r.statusCode = rf.statusCode ∧
      classifyResponse r = att := by
  rcases rf with ⟨code, body⟩
  rcases body with _ | ⟨table, t1⟩
  · exact ⟨⟨code, .parseFail⟩, rfl, by
      simpa [classifyFull, classifyResponse] using h⟩
  · rcases table with _ | rows
    · refine ⟨⟨code, .obj none t1⟩, rfl, ?_⟩
      simp only [classifyFull] at h
      simp only [classifyResponse]
      split at h <;> rename_i hr
      · rw [if_pos hr]
        exact AttemptOutcome.classified.inj h
      · rw [if_neg hr]
        exact AttemptOutcome.classified.inj h
    · exact ⟨⟨code, .obj (some rows) t1⟩, rfl, by
        simpa [classifyFull, classifyResponse] using h⟩
    · refine ⟨⟨code, .obj none t1⟩, rfl, ?_⟩
      simp only [classifyFull] at h
      by_cases hr : raisesForStatus code = true
      · rw [if_pos hr] at h
        simp only [classifyResponse, if_pos hr]
        exact AttemptOutcome.classified.inj h
      · rw [if_neg hr] at h
        exact absurd h (by simp)

/-- **C3, amended.**  An attempt whose body fails to parse is always
classified `error` with zero rows.  An attempt whose JSON object lacks
the `Table` key, and likewise one whose `Table` is present but not
list-shaped, appends zero rows and is classified `error` exactly when
`raise_for_status()` raises, i.e. when the transport status code is
4xx/5xx.  Under a non-raising status the two diverge: an absent `Table`
falls through to `status = 'success'` (still zero rows), while a
present non-list `Table` makes the invocation escape with an uncaught
exception — the non-list value bound to `curData` at line 55 breaks at
line 56, 58, 69, 74 or 79 in every case — so no structured result (and
no rows) is ever delivered to the caller. -/
theorem claim_C3_amended_table_shape_classification (code : Nat)
    (t1 : Option (List Nat)) :
    (classifyFull ⟨code, JsonBodyFull.parseFail⟩ =
      AttemptOutcome.classified ⟨Status.error, [], 0, T1.na⟩) ∧
    ((classifyFull ⟨code, JsonBodyFull.obj TableVal.absent t1⟩ =
        AttemptOutcome.classified ⟨Status.error, [], 0, T1.na⟩) ↔
      (400 ≤ code ∧ code < 600)) ∧
    (¬ (400 ≤ code ∧ code < 600) →
      classifyFull ⟨code, JsonBodyFull.obj TableVal.absent t1⟩ =
        AttemptOutcome.classified ⟨Status.success, [], 0, T1.fromOpt t1⟩) ∧
    ((classifyFull ⟨code, JsonBodyFull.obj TableVal.nonList t1⟩ =
        AttemptOutcome.classified ⟨Status.error, [], 0, T1.na⟩) ↔
      (400 ≤ code ∧ code < 600)) ∧
    (¬ (400 ≤ code ∧ code < 600) →
      classifyFull ⟨code, JsonBodyFull.obj TableVal.nonList t1⟩ =
        AttemptOutcome.crash) ∧
    (∀ att : Attempt,
      classifyFull ⟨code, JsonBodyFull.obj TableVal.absent t1⟩ =
        AttemptOutcome.classified att → att.curData = []) ∧
    (∀ att : Attempt,
      classifyFull ⟨code, JsonBodyFull.obj TableVal.nonList t1⟩ =
        AttemptOutcome.classified att → att.curData = []) := by
  have hcase : raisesForStatus code = true ↔ (400 ≤ code ∧ code < 600) := by
    simp [raisesForStatus]
  refine ⟨rfl, ?_, ?_, ?_, ?_, ?_, ?_⟩
  · by_cases h : raisesForStatus code = true
    · simp [classifyFull, h, hcase.mp h]
    · rw [hcase] at h
      simp [classifyFull, hcase, h]
  · intro h
    rw [← hcase] at h
    simp [classifyFull, h]
  · by_cases h : raisesForStatus code = true
    · simp [classifyFull, h, hcase.mp h]
    · rw [hcase] at h
      simp [classifyFull, hcase, h]
  · intro h
    rw [← hcase] at h
    simp [classifyFull, h]
  · intro att hatt
    simp only [classifyFull] at hatt
    split at hatt <;> rw [← AttemptOutcome.classified.inj hatt]
  · intro att hatt
    simp only [classifyFull] at hatt
    split at hatt
    · rw [← AttemptOutcome.classified.inj hatt]
    · exact absurd hatt (by simp)

/-- Closed instance of the amended C3: at status 404 a non-list `Table`
is classified `error` with zero rows; at status 200 a non-list `Table`
crashes the invocation while an absent `Table` yields `success`. -/
theorem claim_C3_amended_witness :
    classifyFull ⟨404, JsonBodyFull.obj TableVal.nonList none⟩ =
      AttemptOutcome.classified ⟨Status.error, [], 0, T1.na⟩ ∧
    classifyFull ⟨200, JsonBodyFull.obj TableVal.nonList none⟩ =
      AttemptOutcome.crash ∧
    classifyFull ⟨200, JsonBodyFull.obj TableVal.absent none⟩ =
      AttemptOutcome.classified ⟨Status.success, [], 0, T1.fromOpt none⟩ := by
  have h404 := claim_C3_amended_table_shape_classification 404 none
  have h200 := claim_C3_amended_table_shape_classification 200 none
  exact ⟨h404.2.2.2.1.mpr (by omega), h200.2.2.2.2.1 (by omega),
    h200.2.2.1 (by omega)⟩

/-- **C5.**  On a `success` attempt the total page count is read from
the first returned row's `TotalPageCnt` (with `.get` default 0, and 0
when the page has no rows), and — while `depth < maxDepth` — the
controller advances `pageno` to `curPg + 1` exactly when
`curPg < totalPgs`; otherwise it returns the terminal single-page
result at the same depth, having made exactly one transport call when
it started at depth 0.  In particular a first page whose first row
reports `TotalPageCnt = 1` (or an empty first page), fetched with the
default `pageno = 1`, is a one-call terminal run. -/
theorem claim_C5_success_advance_rule (today : Date)
    (oracle : Nat → ApiResponse) (sd : SDate) (qp : QParams)
    (prev : List Row) (depth : Nat)
    (hs : (classifyResponse (oracle depth)).status = Status.success)
    (hd : depth < qp.maxDepth.getD 998) :
    (∀ (tp : Option Nat) (pay : Nat) (rest : List Row)
        (t1 : Option (List Nat)),
      (oracle depth).body = JsonBody.obj (some (Row.dict tp pay :: rest)) t1 →
      (classifyResponse (oracle depth)).totalPgs = tp.getD 0) ∧
    (∀ (t1 : Option (List Nat)),
      (oracle depth).body = JsonBody.obj (some []) t1 →
      (classifyResponse (oracle depth)).totalPgs = 0) ∧
    (qp.pageno.getD 1 < (classifyResponse (oracle depth)).totalPgs →
      bseindia_apiScraper today oracle sd qp prev depth =
        bseindia_apiScraper today oracle
          (SDate.str (cleanDate today (resolveQP today sd qp).2))
          { (resolveQP today sd qp).1 with
            pageno := some (qp.pageno.getD 1 + 1) }
          (prev ++ (classifyResponse (oracle depth)).curData)
          (depth + 1)) ∧
    (¬ qp.pageno.getD 1 < (classifyResponse (oracle depth)).totalPgs →
      bseindia_apiScraper today oracle sd qp prev depth =
        mkResult prev (classifyResponse (oracle depth)) (oracle depth)
          (resolveQP today sd qp).1 depth (qp.maxDepth.getD 998) ∧
      (bseindia_apiScraper today oracle sd qp prev depth).depth = depth ∧
      (depth = 0 →
        callsMade 0 (bseindia_apiScraper today oracle sd qp prev depth) =
          1)) := by
  refine ⟨?_, ?_, ?_, ?_⟩
  · intro tp pay rest t1 hb
    simp [classifyResponse, hb]
  · intro t1 hb
    simp [classifyResponse, hb]
  · intro hp
    exact bseScraper_step today oracle sd qp prev depth _
      (decideNext_success_adv depth (qp.maxDepth.getD 998)
        (qp.pageno.getD 1) (classifyResponse (oracle depth))
        (oracle depth).statusCode hd hs hp)
      (Nat.succ_ne_zero _)
  · intro hp
    have hstop := bseScraper_stop today oracle sd qp prev depth
      (decideNext_success_stop depth (qp.maxDepth.getD 998)
        (qp.pageno.getD 1) (classifyResponse (oracle depth))
        (oracle depth).statusCode hs hp)
    refine ⟨hstop, ?_, ?_⟩
    · rw [hstop]; rfl
    · intro h0
      rw [hstop]
      simp [callsMade, mkResult, h0]

/-- Closed instance of C5: a response whose first row reports
`TotalPageCnt = 1`, fetched with default parameters, is a single-call
terminal success. -/
theorem claim_C5_witness :
    (classifyResponse (oracleOnePage 0)).totalPgs = (some 1).getD 0 ∧
    (bseindia_apiScraper dateT oracleOnePage (.dateVal dateT) {} [] 0 =
      mkResult [] (classifyResponse (oracleOnePage 0)) (oracleOnePage 0)
        (resolveQP dateT (.dateVal dateT) {}).1 0 998 ∧
    (bseindia_apiScraper dateT oracleOnePage (.dateVal dateT) {} []
        0).depth = 0 ∧
    (0 = 0 →
      callsMade 0
        (bseindia_apiScraper dateT oracleOnePage (.dateVal dateT) {} []
          0) = 1)) := by
  have h := claim_C5_success_advance_rule dateT oracleOnePage
    (.dateVal dateT) {} [] 0 (by decide) (by decide)
  exact ⟨h.1 (some 1) 0 [] none (by decide), h.2.2.2 (by decide)⟩

/-- `Nat.digitChar` of a value below 10 is a decimal digit. -/
theorem digitChar_isDigit (n : Nat) (h : n < 10) :
    (Nat.digitChar n).isDigit = true := by
  interval_cases n <;> decide

/-- The rendered `YYYYMMDD` form is always 8 characters long. -/
theorem isoCompact_length (d : Date) : (isoCompact d).length = 8 := by
  rfl

/-- Every character of the rendered `YYYYMMDD` form is a decimal
digit. -/
theorem isoCompact_digits (d : Date) :
    (isoCompact d).data.all Char.isDigit = true := by
  show ([Nat.digitChar (d.year / 1000 % 10), Nat.digitChar (d.year / 100 % 10),
    Nat.digitChar (d.year / 10 % 10), Nat.digitChar (d.year % 10),
    Nat.digitChar (d.month / 10 % 10), Nat.digitChar (d.month % 10),
    Nat.digitChar (d.day / 10 % 10),
    Nat.digitChar (d.day % 10)].all Char.isDigit) = true
  simp only [List.all_cons, List.all_nil, Bool.and_eq_true, Bool.and_true]
  refine ⟨?_, ?_, ?_, ?_, ?_, ?_, ?_, ?_⟩ <;>
    exact digitChar_isDigit _ (Nat.mod_lt _ (by norm_num))

/-- **C6.**  The `searchDate` target is resolved into the two query
bounds as specified: the symbolic tokens `day`/`week`/`month`/`year`
stand for the day-counts 1/7/30/365 and behave exactly like those
integers; a positive integer `N` yields
`strPrevDate = today - N days` and `strToDate = today`; a concrete date
yields that date for both bounds; and every resolved bound is an
8-digit `YYYYMMDD` string. -/
theorem claim_C6_search_window_resolution (today : Date) (qp : QParams)
    (hp : qp.strPrevDate = none) (ht : qp.strToDate = none) :
    (daysDict "day" = some 1 ∧ daysDict "week" = some 7 ∧
      daysDict "month" = some 30 ∧ daysDict "year" = some 365) ∧
    (∀ (s : String) (k : Nat), daysDict s = some k →
      resolvedBounds today (.str s) qp =
        resolvedBounds today (.intVal (k : Int)) qp) ∧
    (∀ n : Int, 0 < n →
      resolvedBounds today (.intVal n) qp =
        (isoCompact (subDays today n.toNat), isoCompact today)) ∧
    (∀ d : Date, resolvedBounds today (.dateVal d) qp =
      (isoCompact d, isoCompact d)) ∧
    (∀ d : Date, (isoCompact d).length = 8 ∧
      (isoCompact d).data.all Char.isDigit = true) := by
  refine ⟨by decide, ?_, ?_, ?_, ?_⟩
  · intro s k hk
    simp [resolvedBounds, resolveQP, hk]
  · intro n hn
    simp [resolvedBounds, resolveQP, effectiveBounds, hn, cleanDate]
  · intro d
    simp [resolvedBounds, resolveQP, effectiveBounds, cleanDate, hp, ht]
  · intro d
    exact ⟨isoCompact_length d, isoCompact_digits d⟩

/-- Closed instance of C6 at `today = 2024-05-10`. -/
theorem claim_C6_witness :
    resolvedBounds dateT (.str "week") {} =
      resolvedBounds dateT (.intVal 7) {} ∧
    resolvedBounds dateT (.intVal 7) {} =
      (isoCompact (subDays dateT 7), isoCompact dateT) ∧
    resolvedBounds dateT (.dateVal ⟨2024, 1, 2⟩) {} =
      (isoCompact ⟨2024, 1, 2⟩, isoCompact ⟨2024, 1, 2⟩) ∧
    (isoCompact (subDays dateT 7)).length = 8 := by
  have h := claim_C6_search_window_resolution dateT {} rfl rfl
  exact ⟨h.2.1 "week" 7 (by decide), h.2.2.1 7 (by decide),
    h.2.2.2.1 ⟨2024, 1, 2⟩, (h.2.2.2.2 (subDays dateT 7)).1⟩

/-- The day-wise `while` loop, given enough fuel, is the concatenation
of per-day unit contributions over the ordinal range. -/
theorem dayWiseLoop_eq_map (transport : Nat → Nat → ApiResponse)
    (todayA : Date) (scrip : Option String) (endOrd : Nat) :
    ∀ (fuel cur : Nat), endOrd + 1 ≤ fuel + cur →
    dayWiseLoop transport todayA scrip endOrd fuel cur =
      ((List.range (endOrd + 1 - cur)).map
        (fun i => dayUnit transport todayA scrip (cur + i))).flatten := by
  intro fuel
  induction fuel with
  | zero =>
      intro cur h
      have h0 : endOrd + 1 - cur = 0 := by omega
      simp [dayWiseLoop, h0]
  | succ f ih =>
      intro cur h
      simp only [dayWiseLoop]
      by_cases hc : cur ≤ endOrd
      · rw [if_pos hc, ih (cur + 1) (by omega)]
        have hn : endOrd + 1 - cur = (endOrd - cur) + 1 := by omega
        have hn2 : endOrd + 1 - (cur + 1) = endOrd - cur := by omega
        rw [hn, hn2, List.range_succ_eq_map]
        simp only [List.map_cons, List.map_map, List.flatten_cons,
          Nat.add_zero]
        congr 1
        have harg : ((fun i => dayUnit transport todayA scrip (cur + i)) ∘
            Nat.succ) = fun i => dayUnit transport todayA scrip
              (cur + 1 + i) := by
          funext i
          simp only [Function.comp]
          congr 1
          omega
        rw [harg]
      · rw [if_neg hc]
        have h0 : endOrd + 1 - cur = 0 := by omega
        simp [h0]

/-- **C7, counterexample.**  The claim says a unit whose controller
result has status `error` contributes zero rows.  It does not when the
error run still accumulated rows from earlier pages: with a transport
whose first page succeeds (announcing 2 pages) and whose second page
fails under a 200 status, the day's result has `status = 'error'` and a
non-empty `data`, and `scrape_day_wise` over that single day emits those
rows (`if result and result['data']` tests the data, not the
status). -/
theorem claim_C7_counterexample :
    (bseindia_apiScraper dateT (transportPartialFail (toDays ⟨2024, 1, 2⟩))
        (.dateVal (fromDays (toDays ⟨2024, 1, 2⟩))) (dayQP none) []
        0).status = Status.error ∧
    (bseindia_apiScraper dateT (transportPartialFail (toDays ⟨2024, 1, 2⟩))
        (.dateVal (fromDays (toDays ⟨2024, 1, 2⟩))) (dayQP none) []
        0).data ≠ [] ∧
    scrape_day_wise transportPartialFail dateT ⟨2024, 1, 2⟩ ⟨2024, 1, 2⟩
        none ≠ [] := by
  decide

/-- **C7, amended.**  For a closed interval `[start, end]` (as day
ordinals), `scrape_day_wise` runs the controller exactly once per
calendar day — `(end - start) + 1` fetch units, in chronological
order — tags every emitted row of a unit with that unit's search date
(`Search_Date` = the day's ISO string) and scrip filter, and
concatenates the unit contributions; a unit whose controller result has
*empty* `data` (in particular a fully-failed `error` unit) contributes
zero rows without aborting the remaining units, while an `error` unit
that still carries partially-accumulated rows does contribute them. -/
theorem claim_C7_amended_day_wise_batch (transport : Nat → Nat → ApiResponse)
    (todayA : Date) (startD endD : Date) (scrip : Option String)
    (h : toDays startD ≤ toDays endD) :
    scrape_day_wise transport todayA startD endD scrip =
      ((List.range (toDays endD + 1 - toDays startD)).map
        (fun i => dayUnit transport todayA scrip (toDays startD + i))).flatten ∧
    (List.range (toDays endD + 1 - toDays startD)).length =
      (toDays endD - toDays startD) + 1 ∧
    (∀ (i : Nat) (dr : DayRow),
      dr ∈ dayUnit transport todayA scrip (toDays startD + i) →
      dr.search_Date = isoDate (fromDays (toDays startD + i)) ∧
      dr.scrip_Code_Searched = scrip) ∧
    (∀ cur : Nat,
      (bseindia_apiScraper todayA (transport cur)
        (.dateVal (fromDays cur)) (dayQP scrip) [] 0).data = [] →
      dayUnit transport todayA scrip cur = []) := by
  refine ⟨?_, ?_, ?_, ?_⟩
  · unfold scrape_day_wise
    exact dayWiseLoop_eq_map transport todayA scrip (toDays endD)
      (toDays endD + 1 - toDays startD) (toDays startD) (by omega)
  · rw [List.length_range]
    omega
  · intro i dr hdr
    unfold dayUnit at hdr
    by_cases hne : (bseindia_apiScraper todayA
        (transport (toDays startD + i))
        (.dateVal (fromDays (toDays startD + i))) (dayQP scrip) []
        0).data = []
    · rw [if_neg (not_not_intro hne)] at hdr
      simp at hdr
    · rw [if_pos hne] at hdr
      obtain ⟨row, _, rfl⟩ := List.mem_map.mp hdr
      exact ⟨rfl, rfl⟩
  · intro cur h0
    simp [dayUnit, h0]

/-- Closed instance of the amended C7 over the three-day interval
`[2024-01-01, 2024-01-03]`: three fetch units, chronologically
concatenated. -/
theorem claim_C7_amended_witness :
    scrape_day_wise transportOnePage dateT ⟨2024, 1, 1⟩ ⟨2024, 1, 3⟩ none =
      ((List.range (toDays ⟨2024, 1, 3⟩ + 1 - toDays ⟨2024, 1, 1⟩)).map
        (fun i => dayUnit transportOnePage dateT none
          (toDays ⟨2024, 1, 1⟩ + i))).flatten ∧
    (List.range (toDays ⟨2024, 1, 3⟩ + 1 - toDays ⟨2024, 1, 1⟩)).length =
      3 := by
  have h := claim_C7_amended_day_wise_batch transportOnePage dateT
    ⟨2024, 1, 1⟩ ⟨2024, 1, 3⟩ none (by decide)
  exact ⟨h.1, h.2.1⟩

/-- **C8.**  The document-view URL rule of the concatenated table: a row
with an attachment filename whose parsed broadcast date is on or after
`today - 2 days` gets the `AttachLive` URL, a row with an attachment
filename and an older parsed broadcast date gets the `AttachHis` URL,
and a row with no attachment filename gets no URL. -/
theorem claim_C8_document_view_url (today : Date) (nm : String)
    (dt : Option Date) :
    (∀ d : Date, dt = some d → dateLeB (subDays today 2) d = true →
      get_attachment_url today (some nm) dt =
        some (attachLivePrefix ++ nm)) ∧
    (∀ d : Date, dt = some d → dateLeB (subDays today 2) d = false →
      get_attachment_url today (some nm) dt =
        some (attachHisPrefix ++ nm)) ∧
    get_attachment_url today none dt = none := by
  refine ⟨?_, ?_, rfl⟩ <;> rintro d rfl hle <;>
    simp [get_attachment_url, hle]

/-- Closed instance of C8 at `today = 2024-05-10`: a broadcast date of
2024-05-09 (within 2 days) gets the live path, 2024-05-05 (5 days ago)
the historical path, and a missing attachment no URL. -/
theorem claim_C8_witness :
    get_attachment_url dateT (some "doc.pdf") (some ⟨2024, 5, 9⟩) =
      some (attachLivePrefix ++ "doc.pdf") ∧
    get_attachment_url dateT (some "doc.pdf") (some ⟨2024, 5, 5⟩) =
      some (attachHisPrefix ++ "doc.pdf") ∧
    get_attachment_url dateT none (some ⟨2024, 5, 9⟩) = none := by
  refine ⟨(claim_C8_document_view_url dateT "doc.pdf"
      (some ⟨2024, 5, 9⟩)).1 ⟨2024, 5, 9⟩ rfl (by decide),
    (claim_C8_document_view_url dateT "doc.pdf"
      (some ⟨2024, 5, 5⟩)).2.1 ⟨2024, 5, 5⟩ rfl (by decide),
    (claim_C8_document_view_url dateT "irrelevant"
      (some ⟨2024, 5, 9⟩)).2.2⟩

/-- **C9.**  Every announcement record the NSE row normalizer emits has
all six canonical fields present as keys, and a canonical field absent
from the source row — the attachment link when the attachment cell has
no anchor — is the empty string, never null or missing. -/
theorem claim_C9_normalizer_invariant (cells : List Cell)
    (rowText : String) (a : List (String × String))
    (h : extractAnnouncement cells rowText = some a) :
    (∀ f ∈ canonicalFields, (dictGet a f).isSome = true) ∧
    ((cells.getD 4 emptyCell).anchorHref = none →
      dictGet a "Attachment Link" = some "") := by
  simp only [extractAnnouncement] at h
  split at h
  · split at h
    · exact absurd h (by simp)
    · rename_i h7 hskip
      rw [if_pos (show 6 < cells.length by omega)] at h
      split at h
      · rw [Option.some_inj] at h
        subst h
        rcases h4 : (cells.getD 4 emptyCell).anchorHref with _ | href <;>
          simp only [h4]
        · constructor
          · intro f hf
            simp only [canonicalFields, List.mem_cons,
              List.not_mem_nil, or_false] at hf
            rcases hf with rfl | rfl | rfl | rfl | rfl | rfl <;>
              simp [dictGet, dictSet]
          · intro _
            simp [dictGet, dictSet]
        · constructor
          · intro f hf
            simp only [canonicalFields, List.mem_cons,
              List.not_mem_nil, or_false] at hf
            rcases hf with rfl | rfl | rfl | rfl | rfl | rfl <;>
              simp [dictGet, dictSet]
          · intro hnone
            exact Option.noConfusion hnone
      · exact absurd h (by simp)
  · exact absurd h (by simp)

/-- Closed instance of C9: a seven-cell row with no attachment anchor
normalizes to a record with all six canonical keys, the attachment link
being the empty string. -/
theorem claim_C9_witness :
    (∀ f ∈ canonicalFields,
      (dictGet [("Symbol", "AXISBANK"),
        ("Company Name", "Axis Bank Limited"), ("Subject", "Results"),
        ("Details", "Board meeting outcome"), ("Attachment Link", ""),
        ("Broadcast Date", "09-May-2024")] f).isSome = true) ∧
    ((cellsNoAnchor.getD 4 emptyCell).anchorHref = none →
      dictGet [("Symbol", "AXISBANK"),
        ("Company Name", "Axis Bank Limited"), ("Subject", "Results"),
        ("Details", "Board meeting outcome"), ("Attachment Link", ""),
        ("Broadcast Date", "09-May-2024")] "Attachment Link" =
          some "") := by
  exact claim_C9_normalizer_invariant cellsNoAnchor "AXISBANK results row"
    [("Symbol", "AXISBANK"), ("Company Name", "Axis Bank Limited"),
      ("Subject", "Results"), ("Details", "Board meeting outcome"),
      ("Attachment Link", ""), ("Broadcast Date", "09-May-2024")]
    (by decide)

/-- **C10.**  `qParams` defaults to one shared mutable dict which the
function mutates in place: after a first default-argument invocation
(window `searchDate = 1`), the shared dict carries
`pageno = 2` and the written `strPrevDate`/`strToDate` window, and a
second invocation with identical explicit arguments — reading the
mutated shared dict — returns different data than the first: the two
runs are not independent executions of a pure function. -/
theorem claim_C10_mutable_default_qparams :
    (callSharedDefault dateT oracleTwoPages (.intVal 1) {}).2.pageno =
      some 2 ∧
    (callSharedDefault dateT oracleTwoPages (.intVal 1) {}).2.strPrevDate =
      some "20240509" ∧
    (callSharedDefault dateT oracleTwoPages (.intVal 1) {}).2.strToDate =
      some "20240510" ∧
    (callSharedDefault dateT oracleTwoPages (.intVal 1)
        (callSharedDefault dateT oracleTwoPages (.intVal 1) {}).2).1.data ≠
      (callSharedDefault dateT oracleTwoPages (.intVal 1) {}).1.data := by
  decide
